import Mathlib

/-!
Shallow embedding of the structured-log formatter of `src/qachatbot.py`
(class `LogFormatter`: methods `format_field` and `create_log_entry`),
together with theorems settling the specification claims about it.

Python strings are modelled as Lean `String` (both `len` and Lean's
`String.length` count Unicode code points).  Python `int` is modelled as
Lean `Int`.  Python's dynamically typed field values are modelled as the
closed sum type `PyVal` below; a value of any other runtime type is
`PyVal.vOther`, which carries the result of Python's `str()` conversion
(which a foreign object's `__str__` may make raise — hence `Except`).
Exceptions are modelled as `Except String` carrying the exception's
message (`str(e)`).
-/

/-- A Python runtime value as seen by `LogFormatter.format_field`'s type
dispatch: `str`, `int`, `float`, `bool`, `dict`, `list`, or any other
type.  `vOther` carries the name of the runtime type (used in
`json.dumps`'s error message) and the result of `str()` on the value.
Python `float` is modelled as a rational number. -/
inductive PyVal where
  | vStr (s : String)
  | vInt (n : Int)
  | vFloat (q : Rat)
  | vBool (b : Bool)
  | vDict (fields : List (String × PyVal))
  | vList (elems : List PyVal)
  | vOther (typeName : String) (strRepr : Except String String)

/-- JSON string escaping for one character, as `json.dumps` with
`ensure_ascii=False` does it: escape the quote, the backslash and control
characters; all other characters (non-ASCII included) pass through. -/
def jsonEscapeChar (c : Char) : List Char :=
  if c = '"' then ['\\', '"']
  else if c = '\\' then ['\\', '\\']
  else if c = '\n' then ['\\', 'n']
  else if c = '\t' then ['\\', 't']
  else if c = '\r' then ['\\', 'r']
  else if c.toNat < 32 then
    ['\\', 'u', '0', '0',
     (Nat.digitChar (c.toNat / 16)), (Nat.digitChar (c.toNat % 16))]
  else [c]

/-- A JSON string literal: the escaped text between double quotes. -/
def jsonQuote (s : String) : String :=
  ⟨'"' :: (s.data.flatMap jsonEscapeChar) ++ ['"']⟩

/-- Decimal rendering of a Python float inside `json.dumps` output.
Python uses the shortest `repr` of the binary double; floats are
modelled as rationals here, so this renders the rational's numerator and
denominator.  No claim observes this string, only that serialization of
a number never raises. -/
def jsonFloatRepr (q : Rat) : String :=
  toString q.num ++ "/" ++ toString q.den

mutual

/-- Model of `json.dumps(x, ensure_ascii=False)` (used by `LogFormatter`
for `dict` and `list` values): compact serialization with `", "` and
`": "` separators, failing — as Python's `json.dumps` does with a
`TypeError` — on a value of an unsupported runtime type. -/
def jsonDumps : PyVal → Except String String
  | PyVal.vStr s => Except.ok (jsonQuote s)
  | PyVal.vInt n => Except.ok (toString n)
  | PyVal.vFloat q => Except.ok (jsonFloatRepr q)
  | PyVal.vBool b => Except.ok (if b then "true" else "false")
  | PyVal.vDict fields => do
      let parts ← jsonFields fields
      Except.ok ("\x7b" ++ String.intercalate ", " parts ++ "\x7d")
  | PyVal.vList elems => do
      let parts ← jsonElems elems
      Except.ok ("[" ++ String.intercalate ", " parts ++ "]")
  | PyVal.vOther typeName _ =>
      Except.error ("Object of type " ++ typeName ++ " is not JSON serializable")

/-- Serialization of a dict's key/value pairs, left to right, stopping at
the first failure (as `json.dumps` raises at the first bad value). -/
def jsonFields : List (String × PyVal) → Except String (List String)
  | [] => Except.ok []
  | (k, v) :: rest => do
      let rv ← jsonDumps v
      let rs ← jsonFields rest
      Except.ok ((jsonQuote k ++ ": " ++ rv) :: rs)

/-- Serialization of a list's elements, left to right. -/
def jsonElems : List PyVal → Except String (List String)
  | [] => Except.ok []
  | v :: rest => do
      let rv ← jsonDumps v
      let rs ← jsonElems rest
      Except.ok (rv :: rs)

end

/-- Model of Python's `f"{x:.2f}"`: fixed-point with exactly two digits
after the decimal point.  `scaled` is `⌊q * 100 + 1/2⌋`, computed on the
numerator and denominator directly (the denominator is positive, so
`Int.ediv` is floor division).  (Python rounds the binary double
half-to-even; on the rational model this rounds half upward — the two
agree on every value a claim evaluates.) -/
def formatFloat2 (q : Rat) : String :=
  let scaled : Int := Int.ediv (200 * q.num + (q.den : Int)) (2 * (q.den : Int))
  let sign := if scaled < 0 then "-" else ""
  let a : Nat := scaled.natAbs
  let frac := a % 100
  sign ++ toString (a / 100) ++ "." ++
    (if frac < 10 then "0" ++ toString frac else toString frac)

/-- Model of `formatter = self.type_formats.get(type(value), str);
formatter(value)` — lines 28–30 of `src/qachatbot.py`: dispatch on the
value's exact runtime type and render it; `Except.error` models the
renderer raising.
  - `str` → the text itself (`str(x)` is the identity on `str`),
  - `int` → `f"\x7bx:d\x7d"`, base-10 decimal,
  - `float` → `f"\x7bx:.2f\x7d"`,
  - `bool` → `str(x).lower()`, i.e. `"true"` / `"false"`,
  - `dict`, `list` → `json.dumps(x, ensure_ascii=False)`,
  - anything else → the `str` fallback, i.e. the object's `str()`. -/
def renderValue : PyVal → Except String String
  | PyVal.vStr s => Except.ok s
  | PyVal.vInt n => Except.ok (toString n)
  | PyVal.vFloat q => Except.ok (formatFloat2 q)
  | PyVal.vBool b => Except.ok (if b then "true" else "false")
  | PyVal.vDict fields => jsonDumps (PyVal.vDict fields)
  | PyVal.vList elems => jsonDumps (PyVal.vList elems)
  | PyVal.vOther _ strRepr => strRepr

/-- Model of Python's `s[:k]` slice for a possibly negative `k`: a
negative stop counts from the end, and the result is clamped to the
string's bounds (never an error). -/
def pySliceTo (s : String) (k : Int) : String :=
  let stop : Int := if k < 0 then (s.length : Int) + k else k
  ⟨s.data.take stop.toNat⟩

/-- Model of Python's `s.ljust(w, c)` with a single-character fill `c`:
append copies of `c` until the length is `w`; if `s` is already at least
`w` long (or `w` is negative), return `s` unchanged. -/
def pyLjust (s : String) (w : Int) (c : Char) : String :=
  ⟨s.data ++ List.replicate (w - (s.length : Int)).toNat c⟩

/-- The `LogFormatter` class's configuration (its `__init__` fields,
lines 12–14): default field width and padding character.  The padding is
modelled as a `Char` — the spec calls it a padding *character*, and both
the constructor default and the instantiation in the app use `" "`. -/
structure LogFormatter where
  max_field_length : Int
  padding_char : Char

/-- Model of line 26, `width = width or self.max_field_length`: Python's
`or` replaces a missing (`None`) *or falsy* (`0`) width argument by the
configured default. -/
def LogFormatter.resolveWidth (self : LogFormatter) (width : Option Int) : Int :=
  match width with
  | none => self.max_field_length
  | some x => if x = 0 then self.max_field_length else x

/-- Model of `LogFormatter.format_field` (lines 24–39):
`width = width or self.max_field_length` (so `None` *and* `0` fall back
to the default); render the value by runtime type; truncate to
`width - 3` plus `"..."` when the rendered text is longer than `width`;
left-justify to `width` with the padding character.  If rendering
raises, return `"Error formatting <field_name>: <str(e)>"` padded the
same way.  Total by construction: the `except` fallback is the value of
the error branch. -/
def LogFormatter.format_field (self : LogFormatter) (value : PyVal)
    (field_name : String) (width : Option Int) : String :=
  let w : Int := self.resolveWidth width
  match renderValue value with
  | Except.ok formatted =>
      let truncated :=
        if (formatted.length : Int) > w then pySliceTo formatted (w - 3) ++ "..."
        else formatted
      pyLjust truncated w self.padding_char
  | Except.error e =>
      pyLjust ("Error formatting " ++ field_name ++ ": " ++ e) w self.padding_char

/-- The static field-width table of `create_log_entry` (lines 47–54). -/
def field_widths : List (String × Int) :=
  [("timestamp", 20), ("log_id", 10), ("user_input", 50),
   ("response", 80), ("model", 15), ("duration_ms", 10)]

/-- Model of `field_widths.get(key, self.max_field_length)` (line 64). -/
def lookupWidth (key : String) (default : Int) : Int :=
  match field_widths.lookup key with
  | some w => w
  | none => default

/-- Model of `LogFormatter.create_log_entry` (lines 41–67).  The
wall-clock timestamp string (`"%Y-%m-%d %H:%M:%S"`, always 19
characters) and the short id (`str(uuid.uuid4())[:8]`, always 8
characters) are generated at run time; they are taken here as
parameters.  `log_data` is a Python dict iterated in insertion order,
modelled as an association list. -/
def LogFormatter.create_log_entry (self : LogFormatter) (timestamp : String)
    (log_id : String) (log_data : List (String × PyVal)) : String :=
  let formatted_fields :=
    [self.format_field (PyVal.vStr timestamp) "timestamp" (some 20),
     self.format_field (PyVal.vStr log_id) "log_id" (some 10)]
    ++ log_data.map (fun kv =>
         self.format_field kv.2 kv.1 (some (lookupWidth kv.1 self.max_field_length)))
  String.intercalate " | " formatted_fields

/-- The formatter instantiated by the app (line 79):
`LogFormatter(max_field_length=100, padding_char=" ")`. -/
def appLogger : LogFormatter := ⟨100, ' '⟩

/-! ### Helper lemmas about the string primitives -/

/-- A string's length is the length of its character list. -/
theorem length_eq_data_length (s : String) : s.length = s.data.length := rfl

/-- The character list underlying `pyLjust`. -/
theorem pyLjust_data (s : String) (w : Int) (c : Char) :
    (pyLjust s w c).data
      = s.data ++ List.replicate ((w - (s.length : Int)).toNat) c := rfl

/-- Length of `pyLjust`: the original length plus the (clamped) deficit. -/
theorem pyLjust_length (s : String) (w : Int) (c : Char) :
    (pyLjust s w c).length = s.length + ((w - (s.length : Int)).toNat) := by
  show (s.data ++ List.replicate ((w - (s.length : Int)).toNat) c).length
      = s.length + ((w - (s.length : Int)).toNat)
  rw [List.length_append, List.length_replicate, length_eq_data_length]

/-- `ljust` never undershoots the requested width. -/
theorem pyLjust_length_ge (s : String) (w : Int) (c : Char) :
    w ≤ ((pyLjust s w c).length : Int) := by
  rw [pyLjust_length]
  push_cast
  omega

/-- With a nonzero width, `width or default` keeps `width` (line 26). -/
theorem resolveWidth_some (fmt : LogFormatter) (w : Int) (hw : w ≠ 0) :
    fmt.resolveWidth (some w) = w := by
  simp only [LogFormatter.resolveWidth, if_neg hw]

/-- A text value no longer than a nonzero requested width is not
truncated: `format_field` just left-justifies it. -/
theorem format_field_str_no_trunc (fmt : LogFormatter) (s fieldName : String)
    (w : Int) (hw : w ≠ 0) (h : (s.length : Int) ≤ w) :
    fmt.format_field (PyVal.vStr s) fieldName (some w)
      = pyLjust s w fmt.padding_char := by
  unfold LogFormatter.format_field
  rw [resolveWidth_some fmt w hw]
  simp only [renderValue]
  rw [if_neg (by omega)]

/-- A text value longer than a nonzero requested width is truncated to
the slice `[: width - 3]` plus `"..."`, then left-justified. -/
theorem format_field_str_trunc (fmt : LogFormatter) (s fieldName : String)
    (w : Int) (hw : w ≠ 0) (h : w < (s.length : Int)) :
    fmt.format_field (PyVal.vStr s) fieldName (some w)
      = pyLjust (pySliceTo s (w - 3) ++ "...") w fmt.padding_char := by
  unfold LogFormatter.format_field
  rw [resolveWidth_some fmt w hw]
  simp only [renderValue]
  rw [if_pos (by omega)]

/-! ### Claim theorems -/

/-- C9: a `width` argument of `0` does not give a zero-width field — it
is treated exactly like an absent width and replaced by the configured
default (`max_field_length`), because line 26's `width or
self.max_field_length` treats `0` as falsy. -/
theorem format_field_zero_width_uses_default (fmt : LogFormatter)
    (v : PyVal) (fieldName : String) :
    fmt.format_field v fieldName (some 0) = fmt.format_field v fieldName none := rfl

/-- C10: for every value, field name and positive width, the string
returned by `format_field` is at least `width` long — the normal, the
truncating and the error-fallback branch all end in `ljust`, which never
undershoots. -/
theorem format_field_length_ge_width (fmt : LogFormatter) (v : PyVal)
    (fieldName : String) (w : Int) (hw : 0 < w) :
    w ≤ ((fmt.format_field v fieldName (some w)).length : Int) := by
  unfold LogFormatter.format_field
  rw [resolveWidth_some fmt w (by omega)]
  cases renderValue v with
  | ok formatted => exact pyLjust_length_ge _ _ _
  | error e => exact pyLjust_length_ge _ _ _

/-- Witness for C10 at a concrete input. -/
theorem format_field_length_ge_width_witness :
    (0 : Int) < 5 ∧
    (5 : Int) ≤ ((appLogger.format_field (PyVal.vStr "hi") "f" (some 5)).length : Int) :=
  ⟨by decide, format_field_length_ge_width appLogger (PyVal.vStr "hi") "f" 5 (by decide)⟩

/-- C5: a text value strictly shorter than the target width is never
truncated: the result has length exactly `target_width`, starts with the
original text, and everything after the original text is the padding
character. -/
theorem format_field_short_text (fmt : LogFormatter) (s fieldName : String)
    (w : Int) (h : (s.length : Int) < w) :
    (fmt.format_field (PyVal.vStr s) fieldName (some w)).length = w.toNat ∧
    s.data <+: (fmt.format_field (PyVal.vStr s) fieldName (some w)).data ∧
    ∀ c ∈ (fmt.format_field (PyVal.vStr s) fieldName (some w)).data.drop s.length,
      c = fmt.padding_char := by
  have hkey := format_field_str_no_trunc fmt s fieldName w (by omega) (by omega)
  rw [hkey]
  refine ⟨?_, ?_, ?_⟩
  · rw [pyLjust_length]
    omega
  · rw [pyLjust_data]
    exact ⟨_, rfl⟩
  · intro c hc
    rw [pyLjust_data, length_eq_data_length, List.drop_left] at hc
    exact List.eq_of_mem_replicate hc

/-- Witness for C5 at a concrete input. -/
theorem format_field_short_text_witness :
    ((("hi" : String).length : Int) < 10) ∧
    ((appLogger.format_field (PyVal.vStr "hi") "f" (some 10)).length = (10 : Int).toNat ∧
     ("hi" : String).data <+: (appLogger.format_field (PyVal.vStr "hi") "f" (some 10)).data ∧
     ∀ c ∈ (appLogger.format_field (PyVal.vStr "hi") "f" (some 10)).data.drop ("hi" : String).length,
       c = appLogger.padding_char) :=
  ⟨by decide, format_field_short_text appLogger "hi" "f" 10 (by decide)⟩

/-- C6: `format_field` dispatches on the value's runtime type: the
integer `42` at width 10 renders as `"42"` plus 8 padding characters,
the float `3.14159` at width 10 as `"3.14"` (two digits after the
decimal point) plus 6 padding characters, and the boolean `True` as the
lowercase token `"true"` padded to the width. -/
theorem format_field_type_dispatch :
    appLogger.format_field (PyVal.vInt 42) "n" (some 10)
      = "42" ++ String.mk (List.replicate 8 ' ') ∧
    appLogger.format_field (PyVal.vFloat (mkRat 314159 100000)) "x" (some 10)
      = "3.14" ++ String.mk (List.replicate 6 ' ') ∧
    appLogger.format_field (PyVal.vBool true) "b" (some 10)
      = "true" ++ String.mk (List.replicate 6 ' ') := by
  refine ⟨by decide, by decide, by decide⟩

/-- C1 counterexample: at the positive width 2 the claim's fixed-width
guarantee fails — `format_field` on the 3-character text `"abc"` returns
`"ab..."`, of length 5, not 2 (the slice `[: 2 - 3]` has negative
length, so the result keeps `len - 1` characters and appends the
3-character ellipsis). -/
theorem format_field_trunc_cex :
    (appLogger.format_field (PyVal.vStr "abc") "f" (some 2)).length ≠ 2 := by decide

/-- C1 (amended to widths of at least 3): for every text value longer
than `target_width`, `format_field` returns a string of length exactly
`target_width` whose first `target_width - 3` characters are the input's
first `target_width - 3` characters and whose final 3 characters are
`"..."`. -/
theorem format_field_long_text (fmt : LogFormatter) (s fieldName : String)
    (w : Int) (hw : 3 ≤ w) (h : w < (s.length : Int)) :
    (fmt.format_field (PyVal.vStr s) fieldName (some w)).length = w.toNat ∧
    (fmt.format_field (PyVal.vStr s) fieldName (some w)).data.take (w.toNat - 3)
      = s.data.take (w.toNat - 3) ∧
    (fmt.format_field (PyVal.vStr s) fieldName (some w)).data.drop (w.toNat - 3)
      = "...".data := by
  have hs : s.length = s.data.length := rfl
  have hkey := format_field_str_trunc fmt s fieldName w (by omega) h
  have hslice : (pySliceTo s (w - 3)).data = s.data.take (w.toNat - 3) := by
    simp only [pySliceTo]
    rw [if_neg (by omega)]
    congr 1
    omega
  have hslicelen : (s.data.take (w.toNat - 3)).length = w.toNat - 3 := by
    rw [List.length_take]
    omega
  have hulen : (pySliceTo s (w - 3) ++ ("..." : String)).length = w.toNat := by
    rw [String.length_append, length_eq_data_length, hslice, hslicelen]
    have h3 : ("..." : String).length = 3 := rfl
    rw [h3]
    omega
  have hrdata : (fmt.format_field (PyVal.vStr s) fieldName (some w)).data
      = s.data.take (w.toNat - 3) ++ "...".data := by
    rw [hkey, pyLjust_data, hulen]
    have h0 : ((w - ((w.toNat : Nat) : Int)).toNat) = 0 := by omega
    rw [h0, List.replicate_zero, List.append_nil, String.data_append, hslice]
  refine ⟨?_, ?_, ?_⟩
  · rw [length_eq_data_length, hrdata, List.length_append, hslicelen]
    have h3 : ("..." : String).data.length = 3 := rfl
    rw [h3]
    omega
  · rw [hrdata]
    exact List.take_left' hslicelen
  · rw [hrdata]
    exact List.drop_left' hslicelen

/-- Witness for the amended C1 at a concrete input. -/
theorem format_field_long_text_witness :
    ((3 : Int) ≤ 5 ∧ (5 : Int) < (("abcdefgh" : String).length : Int)) ∧
    ((appLogger.format_field (PyVal.vStr "abcdefgh") "f" (some 5)).length = (5 : Int).toNat ∧
     (appLogger.format_field (PyVal.vStr "abcdefgh") "f" (some 5)).data.take ((5 : Int).toNat - 3)
       = ("abcdefgh" : String).data.take ((5 : Int).toNat - 3) ∧
     (appLogger.format_field (PyVal.vStr "abcdefgh") "f" (some 5)).data.drop ((5 : Int).toNat - 3)
       = "...".data) :=
  ⟨⟨by decide, by decide⟩,
   format_field_long_text appLogger "abcdefgh" "f" 5 (by decide) (by decide)⟩

/-- C8: at a width strictly between 0 and 3, a rendered text longer than
the width (and at least `3 - width` characters long) yields a result of
length `len + width` — strictly more than the width: the fixed-width
guarantee is violated because the slice `[: width - 3]` has negative
length and counts from the end. -/
theorem format_field_small_width_overflow (fmt : LogFormatter)
    (s fieldName : String) (w : Int) (h1 : 0 < w) (h2 : w < 3)
    (h3 : w < (s.length : Int)) (h4 : 3 - w ≤ (s.length : Int)) :
    ((fmt.format_field (PyVal.vStr s) fieldName (some w)).length : Int)
      = (s.length : Int) + w ∧
    w < ((fmt.format_field (PyVal.vStr s) fieldName (some w)).length : Int) := by
  have hs : s.length = s.data.length := rfl
  have hkey := format_field_str_trunc fmt s fieldName w (by omega) h3
  have hslicelen : (pySliceTo s (w - 3)).length = ((s.length : Int) + w - 3).toNat := by
    simp only [pySliceTo]
    rw [if_pos (by omega)]
    rw [length_eq_data_length]
    simp only [List.length_take]
    omega
  have hulen : ((pySliceTo s (w - 3) ++ ("..." : String)).length : Int)
      = (s.length : Int) + w := by
    rw [String.length_append, hslicelen]
    have h3' : ("..." : String).length = 3 := rfl
    rw [h3']
    push_cast
    omega
  have hflen : ((fmt.format_field (PyVal.vStr s) fieldName (some w)).length : Int)
      = (s.length : Int) + w := by
    rw [hkey, pyLjust_length]
    push_cast
    omega
  exact ⟨hflen, by omega⟩

/-- Witness for C8 at a concrete input: width 2, text `"abc"` gives the
5-character `"ab..."`. -/
theorem format_field_small_width_overflow_witness :
    ((0 : Int) < 2 ∧ (2 : Int) < 3 ∧ (2 : Int) < (("abc" : String).length : Int) ∧
     (3 : Int) - 2 ≤ (("abc" : String).length : Int)) ∧
    (((appLogger.format_field (PyVal.vStr "abc") "g" (some 2)).length : Int)
       = (("abc" : String).length : Int) + 2 ∧
     (2 : Int) < ((appLogger.format_field (PyVal.vStr "abc") "g" (some 2)).length : Int)) :=
  ⟨⟨by decide, by decide, by decide, by decide⟩,
   format_field_small_width_overflow appLogger "abc" "g" 2
     (by decide) (by decide) (by decide) (by decide)⟩

/-- C2: `format_field` is total, and when rendering the value raises
(`renderValue` returns an error), the result is exactly the literal
`"Error formatting <field_name>: <message>"` left-justified — never
truncated — to the resolved width with the configured padding character:
the full error text is a prefix of the result whatever the width, and
the result is still at least the width long. -/
theorem format_field_error_fallback (fmt : LogFormatter) (v : PyVal)
    (fieldName : String) (width : Option Int) (e : String)
    (herr : renderValue v = Except.error e) :
    fmt.format_field v fieldName width
      = pyLjust ("Error formatting " ++ fieldName ++ ": " ++ e)
          (fmt.resolveWidth width) fmt.padding_char ∧
    ("Error formatting " ++ fieldName ++ ": " ++ e).data
      <+: (fmt.format_field v fieldName width).data ∧
    fmt.resolveWidth width ≤ ((fmt.format_field v fieldName width).length : Int) := by
  have hkey : fmt.format_field v fieldName width
      = pyLjust ("Error formatting " ++ fieldName ++ ": " ++ e)
          (fmt.resolveWidth width) fmt.padding_char := by
    unfold LogFormatter.format_field
    rw [herr]
  refine ⟨hkey, ?_, ?_⟩
  · rw [hkey, pyLjust_data]
    exact ⟨_, rfl⟩
  · rw [hkey]
    exact pyLjust_length_ge _ _ _

/-- Witness for C2: a foreign object whose `str()` raises `"boom"`. -/
theorem format_field_error_fallback_witness :
    renderValue (PyVal.vOther "Foo" (Except.error "boom")) = Except.error "boom" ∧
    (appLogger.format_field (PyVal.vOther "Foo" (Except.error "boom")) "field" (some 10)
       = pyLjust ("Error formatting " ++ "field" ++ ": " ++ "boom")
           (appLogger.resolveWidth (some 10)) appLogger.padding_char ∧
     ("Error formatting " ++ "field" ++ ": " ++ "boom").data
       <+: (appLogger.format_field (PyVal.vOther "Foo" (Except.error "boom")) "field" (some 10)).data ∧
     appLogger.resolveWidth (some 10)
       ≤ ((appLogger.format_field (PyVal.vOther "Foo" (Except.error "boom")) "field" (some 10)).length : Int)) :=
  ⟨rfl, format_field_error_fallback appLogger
     (PyVal.vOther "Foo" (Except.error "boom")) "field" (some 10) "boom" rfl⟩

/-- C3: on the mapping `{"user_input": "hi", "response": "hello",
"model": "x", "duration_ms": 5}`, `create_log_entry` produces one line of
exactly 6 fields — timestamp, id, user_input, response, model,
duration_ms — joined by `" | "`, with rendered field lengths 20, 10, 50,
80, 15 and 10.  (The generated timestamp is always 19 characters and the
short id always 8; the theorem only needs them to fit their widths.) -/
theorem create_log_entry_example (ts id : String)
    (hts : (ts.length : Int) ≤ 20) (hid : (id.length : Int) ≤ 10) :
    ∃ f1 f2 f3 f4 f5 f6 : String,
      appLogger.create_log_entry ts id
        [("user_input", PyVal.vStr "hi"), ("response", PyVal.vStr "hello"),
         ("model", PyVal.vStr "x"), ("duration_ms", PyVal.vInt 5)]
        = String.intercalate " | " [f1, f2, f3, f4, f5, f6] ∧
      f1.length = 20 ∧ f2.length = 10 ∧ f3.length = 50 ∧
      f4.length = 80 ∧ f5.length = 15 ∧ f6.length = 10 := by
  refine ⟨appLogger.format_field (PyVal.vStr ts) "timestamp" (some 20),
    appLogger.format_field (PyVal.vStr id) "log_id" (some 10),
    appLogger.format_field (PyVal.vStr "hi") "user_input" (some 50),
    appLogger.format_field (PyVal.vStr "hello") "response" (some 80),
    appLogger.format_field (PyVal.vStr "x") "model" (some 15),
    appLogger.format_field (PyVal.vInt 5) "duration_ms" (some 10),
    rfl, ?_, ?_, by decide, by decide, by decide, by decide⟩
  · rw [format_field_str_no_trunc appLogger ts "timestamp" 20 (by omega) hts,
      pyLjust_length]
    omega
  · rw [format_field_str_no_trunc appLogger id "log_id" 10 (by omega) hid,
      pyLjust_length]
    omega

/-- Witness for C3 with a concrete timestamp and id of the shapes the
code generates. -/
theorem create_log_entry_example_witness :
    ((("2025-01-01 00:00:00" : String).length : Int) ≤ 20 ∧
     (("abcd1234" : String).length : Int) ≤ 10) ∧
    (∃ f1 f2 f3 f4 f5 f6 : String,
      appLogger.create_log_entry "2025-01-01 00:00:00" "abcd1234"
        [("user_input", PyVal.vStr "hi"), ("response", PyVal.vStr "hello"),
         ("model", PyVal.vStr "x"), ("duration_ms", PyVal.vInt 5)]
        = String.intercalate " | " [f1, f2, f3, f4, f5, f6] ∧
      f1.length = 20 ∧ f2.length = 10 ∧ f3.length = 50 ∧
      f4.length = 80 ∧ f5.length = 15 ∧ f6.length = 10) :=
  ⟨⟨by decide, by decide⟩,
   create_log_entry_example "2025-01-01 00:00:00" "abcd1234" (by decide) (by decide)⟩

/-- C4: every log entry is the `" | "`-join of a list of rendered fields
that starts with the timestamp field, then the short-id field, and then
— in exactly the order provided, never sorted — one rendered field per
caller-supplied `(name, value)` pair. -/
theorem create_log_entry_field_order (fmt : LogFormatter) (ts id : String)
    (log_data : List (String × PyVal)) :
    ∃ fs : List String,
      fmt.create_log_entry ts id log_data = String.intercalate " | " fs ∧
      fs.length = log_data.length + 2 ∧
      fs[0]? = some (fmt.format_field (PyVal.vStr ts) "timestamp" (some 20)) ∧
      fs[1]? = some (fmt.format_field (PyVal.vStr id) "log_id" (some 10)) ∧
      ∀ i : Nat, fs[i + 2]? = (log_data[i]?).map
        (fun kv => fmt.format_field kv.2 kv.1
          (some (lookupWidth kv.1 fmt.max_field_length))) := by
  refine ⟨[fmt.format_field (PyVal.vStr ts) "timestamp" (some 20),
      fmt.format_field (PyVal.vStr id) "log_id" (some 10)]
      ++ log_data.map (fun kv => fmt.format_field kv.2 kv.1
          (some (lookupWidth kv.1 fmt.max_field_length))),
    rfl, ?_, by simp, by simp, ?_⟩
  · simp only [List.length_append, List.length_map, List.length_cons, List.length_nil]
    omega
  · intro i
    rw [List.getElem?_append_right (by simp)]
    simp only [List.length_cons, List.length_nil]
    have h2 : i + 2 - (0 + 1 + 1) = i := by omega
    rw [h2, List.getElem?_map]

/-- C7: a field whose name is not in the static width table is rendered
at the formatter's default width — for the app's formatter, 100. -/
theorem create_log_entry_unknown_key (key : String) (v : PyVal) (ts id : String)
    (h : key ∉ ["timestamp", "log_id", "user_input", "response", "model", "duration_ms"]) :
    appLogger.create_log_entry ts id [(key, v)]
      = String.intercalate " | "
          [appLogger.format_field (PyVal.vStr ts) "timestamp" (some 20),
           appLogger.format_field (PyVal.vStr id) "log_id" (some 10),
           appLogger.format_field v key (some 100)] := by
  simp only [List.mem_cons, List.not_mem_nil, or_false, not_or] at h
  obtain ⟨h1, h2, h3, h4, h5, h6⟩ := h
  have hw : lookupWidth key appLogger.max_field_length = 100 := by
    simp only [lookupWidth, field_widths, List.lookup, appLogger,
      beq_eq_false_iff_ne.mpr h1, beq_eq_false_iff_ne.mpr h2,
      beq_eq_false_iff_ne.mpr h3, beq_eq_false_iff_ne.mpr h4,
      beq_eq_false_iff_ne.mpr h5, beq_eq_false_iff_ne.mpr h6]
  simp only [LogFormatter.create_log_entry, List.map_cons, List.map_nil, hw]
  rfl

/-- Witness for C7 at the concrete unknown key `"extra_field"`. -/
theorem create_log_entry_unknown_key_witness :
    ("extra_field" ∉ ["timestamp", "log_id", "user_input", "response", "model", "duration_ms"]) ∧
    appLogger.create_log_entry "t" "i" [("extra_field", PyVal.vStr "x")]
      = String.intercalate " | "
          [appLogger.format_field (PyVal.vStr "t") "timestamp" (some 20),
           appLogger.format_field (PyVal.vStr "i") "log_id" (some 10),
           appLogger.format_field (PyVal.vStr "x") "extra_field" (some 100)] :=
  ⟨by decide, create_log_entry_unknown_key "extra_field" (PyVal.vStr "x") "t" "i" (by decide)⟩
